import Mathlib

/-!
Verification of the tilt_programs / zkpoker heads-up poker arbiter.

This file gives a shallow embedding, in Lean 4, of the parts of the Rust
sources relevant to the stated properties: the Pohlig-Hellman prime
constant and card verification (`state/game.rs`), the 5-card hand
evaluator and best-of-seven search (`poker.rs`), the betting engine
(`player_action` in `game_play.rs`), hand setup (`create_game`,
`join_game` in `game_setup.rs`), the two-step community-card reveal
(`reveal_community_cards`), showdown settlement (`resolve_hand`) and
timeout claiming (`claim_timeout` in `game_end.rs`), and the legacy
seeded Fisher-Yates shuffle (`initialize_deck` in `state.rs`).

Machine integers (u64) are modelled as `Nat`; Rust `saturating_add` /
`saturating_sub` are modelled explicitly (`Nat` subtraction is already
truncated).  i64 values are modelled as `Int` with explicit clamping for
the saturating operations.  Fallible instructions return `Except`.
-/

set_option maxRecDepth 100000

/-! ## Machine-integer helpers -/

/-- Largest u64 value, `u64::MAX`. -/
def U64_MAX : Nat := 2 ^ 64 - 1

/-- Rust `u64::saturating_add` on `Nat`-represented u64 values. -/
def sat_add (a b : Nat) : Nat := min (a + b) U64_MAX

/-- Rust `u64::saturating_sub`; `Nat` subtraction is already truncated at 0. -/
def sat_sub (a b : Nat) : Nat := a - b

/-- Largest i64 value. -/
def I64_MAX : Int := 2 ^ 63 - 1

/-- Smallest i64 value. -/
def I64_MIN : Int := -(2 ^ 63)

/-- Rust `i64::saturating_add` on `Int`-represented i64 values. -/
def sat_add_i64 (a b : Int) : Int := max (min (a + b) I64_MAX) I64_MIN

/-- Rust `i64::saturating_sub` on `Int`-represented i64 values. -/
def sat_sub_i64 (a b : Int) : Int := max (min (a - b) I64_MAX) I64_MIN

/-! ## Byte-sequence helpers -/

/-- Big-endian interpretation of a byte sequence, as in
`BigUint::from_bytes_be` / `U256::from_be_bytes`. -/
def from_bytes_be (bs : List Nat) : Nat := bs.foldl (fun acc b => acc * 256 + b) 0

/-- A 32-byte all-zero sequence (`[0u8; 32]`). -/
def zero32 : List Nat := List.replicate 32 0

/-! ## The Pohlig-Hellman prime constants -/

/-- Constant `PRIME_BYTES` from `tilt_programs/src/state/game.rs` (lines 9-15),
transcribed byte for byte: a 33-byte array of thirty-two `0xFF` bytes
followed by `0x43`.  The comment above it in the source claims the value
is `2^256 - 189`. -/
def PRIME_BYTES : List Nat :=
  [0xFF, 0xFF, 0xFF, 0xFF, 0xFF, 0xFF, 0xFF, 0xFF,
   0xFF, 0xFF, 0xFF, 0xFF, 0xFF, 0xFF, 0xFF, 0xFF,
   0xFF, 0xFF, 0xFF, 0xFF, 0xFF, 0xFF, 0xFF, 0xFF,
   0xFF, 0xFF, 0xFF, 0xFF, 0xFF, 0xFF, 0xFF, 0xFF,
   0x43]

/-- Constant `PRIME_BYTES` from `zkpoker/src/state/game.rs` (lines 9-14): a
32-byte array of thirty-one `0xFF` bytes followed by `0x43`. -/
def ZK_PRIME_BYTES : List Nat :=
  [0xFF, 0xFF, 0xFF, 0xFF, 0xFF, 0xFF, 0xFF, 0xFF,
   0xFF, 0xFF, 0xFF, 0xFF, 0xFF, 0xFF, 0xFF, 0xFF,
   0xFF, 0xFF, 0xFF, 0xFF, 0xFF, 0xFF, 0xFF, 0xFF,
   0xFF, 0xFF, 0xFF, 0xFF, 0xFF, 0xFF, 0xFF, 0x43]

/-- Function `get_prime` from `tilt_programs/src/state/game.rs`:
`BigUint::from_bytes_be(&PRIME_BYTES)`. -/
def get_prime : Nat := from_bytes_be PRIME_BYTES

/-- Function `get_prime` from `zkpoker/src/state/game.rs`:
`U256::from_be_bytes(PRIME_BYTES)`. -/
def zk_get_prime : Nat := from_bytes_be ZK_PRIME_BYTES

/-- Mathematical semantics of `BigUint::modpow(base, exp, modulus)`:
`base ^ exp mod modulus`. -/
def modpow (base exp m : Nat) : Nat := base ^ exp % m

/-! ## Card model (`state/types.rs` / `state.rs`) -/

/-- Method `Card::rank`: `c % 13` (0=2 .. 12=A). -/
def rank (c : Nat) : Nat := c % 13

/-- Method `Card::suit`: `c / 13` (0=clubs .. 3=spades). -/
def suit (c : Nat) : Nat := c / 13

/-- Method `Card::rank_value`: `rank + 2` (2..14, Ace high). -/
def rank_value (c : Nat) : Nat := rank c + 2

/-! ## Hand evaluator (`zkpoker/src/poker.rs`) -/

/-- The sort at the top of `evaluate_hand`:
`cards.sort_by_key(|c| c.rank_value()); cards.reverse();`
(a stable ascending sort by rank value followed by a reversal, so the
highest rank comes first). -/
def sort_desc (cards : List Nat) : List Nat :=
  (List.insertionSort (fun a b => rank_value a ≤ rank_value b) cards).reverse

/-- Function `check_straight` from `poker.rs`: five consecutive descending ranks,
or the wheel `[12, 3, 2, 1, 0]` (A-2-3-4-5).  The source indexes a
5-element vector; other lengths do not occur. -/
def check_straight (ranks : List Nat) : Bool :=
  match ranks with
  | [a, b, c, d, e] =>
      (a == b + 1 && b == c + 1 && c == d + 1 && d == e + 1)
        || ([a, b, c, d, e] == [12, 3, 2, 1, 0])
  | _ => false

/-- One step of the counting loop in `count_ranks`: bump an existing
`(rank, count)` entry or push a new one at the end. -/
def count_insert (counts : List (Nat × Nat)) (r : Nat) : List (Nat × Nat) :=
  match counts with
  | [] => [(r, 1)]
  | (a, n) :: t => if a = r then (a, n + 1) :: t else (a, n) :: count_insert t r

/-- Function `count_ranks` from `poker.rs`: tally the ranks, then sort by count
descending and rank descending. -/
def count_ranks (ranks : List Nat) : List (Nat × Nat) :=
  List.insertionSort
    (fun x y => y.2 < x.2 ∨ (x.2 = y.2 ∧ y.1 ≤ x.1))
    (ranks.foldl count_insert [])

/-- The kicker loop of the Flush / HighCard branches in `evaluate_hand`:
`score |= rank_value << (16 - i*4)` for the cards in order. -/
def kicker_bits : List Nat → Nat → Nat
  | [], _ => 0
  | c :: rest, sh => (rank_value c <<< sh) ||| kicker_bits rest (sh - 4)

/-- Function `evaluate_hand` from `zkpoker/src/poker.rs`: score a 5-card hand,
category in bits 20.., tiebreakers below, mirroring the source's early
returns branch for branch. -/
def evaluate_hand (cards0 : List Nat) : Nat :=
  let cards := sort_desc cards0
  let ranks := cards.map rank
  let suits := cards.map suit
  let is_flush := suits.all (fun s => s == suits.getD 0 0)
  let is_straight := check_straight ranks
  let is_wheel := ranks == [12, 3, 2, 1, 0]
  let rank_counts := count_ranks ranks
  if is_straight && is_flush then
    if ranks.getD 0 0 == 12 && ranks.getD 1 0 == 11 then
      9 <<< 20 ||| (14 <<< 16)
    else
      let high_card := if is_wheel then 5 else rank_value (cards.getD 0 0)
      8 <<< 20 ||| (high_card <<< 16)
  else
    match rank_counts.find? (fun p => p.2 == 4) with
    | some four_rank =>
        let kicker := ((rank_counts.find? (fun p => p.2 == 1)).getD (0, 0)).1
        7 <<< 20 ||| ((four_rank.1 + 2) <<< 16) ||| ((kicker + 2) <<< 12)
    | none =>
        let three := rank_counts.find? (fun p => p.2 == 3)
        let pair := rank_counts.find? (fun p => p.2 == 2)
        match three, pair with
        | some t, some p =>
            6 <<< 20 ||| ((t.1 + 2) <<< 16) ||| ((p.1 + 2) <<< 12)
        | _, _ =>
            if is_flush then
              (5 <<< 20) ||| kicker_bits cards 16
            else if is_straight then
              let high_card := if is_wheel then 5 else rank_value (cards.getD 0 0)
              4 <<< 20 ||| (high_card <<< 16)
            else
              match three with
              | some t =>
                  let kickers :=
                    (rank_counts.filter (fun p => p.2 == 1)).map (fun p => p.1 + 2)
                  3 <<< 20 ||| ((t.1 + 2) <<< 16)
                    ||| (kickers.getD 0 0 <<< 12) ||| (kickers.getD 1 0 <<< 8)
              | none =>
                  let pairs :=
                    (rank_counts.filter (fun p => p.2 == 2)).map (fun p => p.1 + 2)
                  if pairs.length == 2 then
                    let high_pair := (pairs.max?).getD 0
                    let low_pair := (pairs.min?).getD 0
                    let kicker :=
                      ((rank_counts.find? (fun p => p.2 == 1)).getD (0, 0)).1 + 2
                    2 <<< 20 ||| (high_pair <<< 16) ||| (low_pair <<< 12)
                      ||| (kicker <<< 8)
                  else if pairs.length == 1 then
                    let pair_rank := pairs.getD 0 0
                    let kickers :=
                      (rank_counts.filter (fun p => p.2 == 1)).map (fun p => p.1 + 2)
                    1 <<< 20 ||| (pair_rank <<< 16) ||| (kickers.getD 0 0 <<< 12)
                      ||| (kickers.getD 1 0 <<< 8) ||| (kickers.getD 2 0 <<< 4)
                  else
                    (0 <<< 20) ||| kicker_bits cards 16

/-- All length-`n` combinations of a list, in the lexicographic
index order generated by the nested loops of `find_best_hand`. -/
def combos_len : Nat → List Nat → List (List Nat)
  | 0, _ => [[]]
  | _ + 1, [] => []
  | n + 1, x :: xs => (combos_len n xs).map (fun c => x :: c) ++ combos_len (n + 1) xs

/-- Function `find_best_hand` from `zkpoker/src/poker.rs`: enumerate the
C(7,5) = 21 five-card picks of hole plus community cards in loop order,
keeping the first hand of maximal score. -/
def find_best_hand (hole_cards : List Nat) (community_cards : List Nat) :
    List Nat × Nat :=
  let all_cards := hole_cards ++ community_cards
  (combos_len 5 all_cards).foldl
    (fun best hand =>
      let score := evaluate_hand hand
      if best.2 < score then (hand, score) else best)
    (List.replicate 5 0, 0)

/-! ## Game types -/

/-- Opaque caller identity (a Solana `Pubkey`), modelled as a natural
number; `Pubkey::default()` is 0. -/
abbrev Pubkey := Nat

/-- Type `EncryptedCard` (32-byte big-endian element of the cipher field). -/
structure EncryptedCard where
  data : List Nat
deriving DecidableEq, Repr

/-- Value `EncryptedCard::default()`: 32 zero bytes. -/
def zero_card : EncryptedCard := ⟨zero32⟩

/-- Type `EphemeralPubkey` (32-byte big-endian Pohlig-Hellman exponent). -/
structure EphemeralPubkey where
  data : List Nat
deriving DecidableEq, Repr

/-- Modelled from the spec: the declaration of the mental-poker `GameStage`
enum is not among the provided sources (only its uses in
`game_setup.rs`, `game_play.rs` and `game_end.rs` are); the variant list
follows the stage DAG of spec section 4.6 and covers every variant those
files mention. -/
inductive GameStage where
  | WaitingForPlayer2
  | PreFlopBetting
  | AwaitingFlopReveal
  | AwaitingPlayer2FlopShare
  | PostFlopBetting
  | AwaitingTurnReveal
  | AwaitingPlayer2TurnShare
  | PostTurnBetting
  | AwaitingRiverReveal
  | AwaitingPlayer2RiverShare
  | PostRiverBetting
  | Showdown
  | AwaitingPlayer2ShowdownReveal
  | Finished
deriving DecidableEq, Repr

/-- Enum `PlayerActionType` from `state/types.rs`. -/
inductive PlayerActionType where
  | None
  | Fold
  | Check
  | Call
  | Raise
  | AllIn
deriving DecidableEq, Repr

/-- Enum `PokerError` from `zkpoker/src/errors.rs` (the superset of variants;
`tilt_programs/src/errors.rs` is a strict prefix of this list). -/
inductive PokerError where
  | InvalidGameStage
  | NotYourTurn
  | InvalidAction
  | InvalidBetAmount
  | InsufficientFunds
  | InvalidCommitment
  | SecretMismatch
  | SecretsNotRevealed
  | GameFull
  | CannotJoinOwnGame
  | TimeoutNotReached
  | RaiseTooSmall
  | BlindsNotPosted
  | BettingRoundNotComplete
  | CardsAlreadyDealt
  | InvalidCommunityCards
  | PlayerFolded
  | PlayerAllIn
  | ZeroCommitment
  | GameAlreadyFull
  | CannotActAfterFold
  | CannotRaiseAllIn
  | MinimumRaiseNotMet
  | InsufficientBalance
  | InsufficientBalanceToJoin
  | InvalidWithdrawalAmount
  | InvalidDepositAmount
  | AllInExceedsStack
  | CardVerificationFailed
  | InvalidEncryptedCards
  | RevealDeadlineNotReached
  | MissingDecryptionShares
  | AlreadyRevealedHand
  | OpponentNotRevealed
  | InvalidEphemeralKey
deriving DecidableEq, Repr

/-- Struct `GameState` from `tilt_programs/src/state/game.rs` (the
mental-poker variant), field for field; u64 fields are `Nat`, i64
fields are `Int`, fixed arrays are lists of the stated length. -/
structure GameState where
  game_id : Nat
  player1 : Pubkey
  player2 : Pubkey
  token_vault : Pubkey
  vault_bump : Nat
  stake_amount : Nat
  pot : Nat
  player1_current_bet : Nat
  player2_current_bet : Nat
  player1_stack : Nat
  player2_stack : Nat
  player1_bond : Nat
  player2_bond : Nat
  player1_ephemeral_pubkey : EphemeralPubkey
  player2_ephemeral_pubkey : EphemeralPubkey
  deck_merkle_root : List Nat
  encrypted_cards : List EncryptedCard
  player1_flop_shares : List EncryptedCard
  player1_turn_share : EncryptedCard
  player1_river_share : EncryptedCard
  player1_hand : List Nat
  player2_hand : List Nat
  community_cards : List Nat
  community_cards_revealed : Nat
  stage : GameStage
  current_player : Nat
  dealer_button : Nat
  last_action : PlayerActionType
  small_blind : Nat
  big_blind : Nat
  player1_folded : Bool
  player2_folded : Bool
  player1_all_in : Bool
  player2_all_in : Bool
  player1_revealed_hand : Bool
  player2_revealed_hand : Bool
  created_at : Int
  last_action_at : Int
  action_timeout : Int
  reveal_deadline : Int
  winner : Option Pubkey
  winning_hand_rank : Option Nat
  bump : Nat
deriving DecidableEq, Repr

/-- Method `GameState::is_player_turn`. -/
def is_player_turn (g : GameState) (player : Pubkey) : Bool :=
  if g.current_player = 1 then player == g.player1 else player == g.player2

/-- Method `GameState::get_other_player`. -/
def get_other_player (g : GameState) (player : Pubkey) : Pubkey :=
  if player = g.player1 then g.player2 else g.player1

/-- Method `GameState::verify_card` from `tilt_programs/src/state/game.rs`:
re-encrypt the plaintext with both ephemeral keys over the source's
prime and compare to the stored ciphertext; out-of-range keys make
verification fail. -/
def verify_card (g : GameState) (plaintext_card : Nat)
    (encrypted_card : EncryptedCard) : Bool :=
  let prime := get_prime
  let plaintext := plaintext_card + 2
  let player1_key := from_bytes_be g.player1_ephemeral_pubkey.data
  let player2_key := from_bytes_be g.player2_ephemeral_pubkey.data
  if player1_key < 2 ∨ prime ≤ player1_key then false
  else if player2_key < 2 ∨ prime ≤ player2_key then false
  else
    let encrypted_once := modpow plaintext player1_key prime
    let encrypted_twice := modpow encrypted_once player2_key prime
    encrypted_twice == from_bytes_be encrypted_card.data

/-- Method `GameState::get_player1_encrypted_cards` (slots 0, 1). -/
def get_player1_encrypted_cards (g : GameState) : List EncryptedCard :=
  [g.encrypted_cards.getD 0 zero_card, g.encrypted_cards.getD 1 zero_card]

/-- Method `GameState::get_player2_encrypted_cards` (slots 2, 3). -/
def get_player2_encrypted_cards (g : GameState) : List EncryptedCard :=
  [g.encrypted_cards.getD 2 zero_card, g.encrypted_cards.getD 3 zero_card]

/-! ## Betting engine (`player_action` in `game_play.rs`; the body is
identical in `zkpoker` and `tilt_programs`) -/

/-- The stage gate at the top of `player_action`
(`matches!(stage, PreFlopBetting | PostFlopBetting | PostTurnBetting |
PostRiverBetting)`). -/
def is_betting_stage : GameStage → Bool
  | GameStage.PreFlopBetting => true
  | GameStage.PostFlopBetting => true
  | GameStage.PostTurnBetting => true
  | GameStage.PostRiverBetting => true
  | _ => false

/-- The `match action` block of `player_action`: each arm's state
mutation, with the acting player's bet/stack views passed in the way
the source reads them out before the match. -/
def player_action_step (g : GameState) (player : Pubkey) (is_player1 : Bool)
    (current_bet opponent_bet player_stack opponent_stack : Nat)
    (action : PlayerActionType) (raise_amount : Option Nat) :
    Except PokerError GameState :=
  match action with
  | PlayerActionType.Fold =>
      Except.ok { g with
        player1_folded := if is_player1 then true else g.player1_folded,
        player2_folded := if is_player1 then g.player2_folded else true,
        stage := GameStage.Finished,
        winner := some (get_other_player g player) }
  | PlayerActionType.Check =>
      if current_bet = opponent_bet then Except.ok g
      else Except.error PokerError.InvalidAction
  | PlayerActionType.Call =>
      let call_amount := sat_sub opponent_bet current_bet
      if player_stack < call_amount then
        let all_in_amount := player_stack
        Except.ok (if is_player1 then
          { g with
            player1_current_bet := sat_add current_bet all_in_amount,
            player1_stack := 0,
            player1_all_in := true,
            pot := sat_add g.pot all_in_amount }
        else
          { g with
            player2_current_bet := sat_add current_bet all_in_amount,
            player2_stack := 0,
            player2_all_in := true,
            pot := sat_add g.pot all_in_amount })
      else
        Except.ok (if is_player1 then
          { g with
            player1_current_bet := opponent_bet,
            player1_stack := sat_sub player_stack call_amount,
            pot := sat_add g.pot call_amount }
        else
          { g with
            player2_current_bet := opponent_bet,
            player2_stack := sat_sub player_stack call_amount,
            pot := sat_add g.pot call_amount })
  | PlayerActionType.Raise =>
      match raise_amount with
      | none => Except.error PokerError.InvalidBetAmount
      | some raise_amt =>
          let call_amount := sat_sub opponent_bet current_bet
          let total_new_bet := sat_add call_amount raise_amt
          if player_stack ≥ total_new_bet then
            let min_raise := sat_sub opponent_bet current_bet
            if raise_amt ≥ min_raise ∨ raise_amt = sat_sub player_stack call_amount then
              let new_bet := sat_add current_bet total_new_bet
              let effective_bet :=
                if new_bet > sat_add opponent_bet opponent_stack then
                  sat_add opponent_bet opponent_stack
                else new_bet
              Except.ok (if is_player1 then
                { g with
                  player1_current_bet := effective_bet,
                  player1_stack := sat_sub player_stack total_new_bet,
                  pot := sat_add g.pot total_new_bet }
              else
                { g with
                  player2_current_bet := effective_bet,
                  player2_stack := sat_sub player_stack total_new_bet,
                  pot := sat_add g.pot total_new_bet })
            else Except.error PokerError.MinimumRaiseNotMet
          else Except.error PokerError.InsufficientFunds
  | PlayerActionType.AllIn =>
      if player_stack > 0 then
        let all_in_amount := player_stack
        let new_total_bet := sat_add current_bet all_in_amount
        Except.ok (if is_player1 then
          { g with
            player1_current_bet := new_total_bet,
            player1_stack := 0,
            player1_all_in := true,
            pot := sat_add g.pot all_in_amount }
        else
          { g with
            player2_current_bet := new_total_bet,
            player2_stack := 0,
            player2_all_in := true,
            pot := sat_add g.pot all_in_amount })
      else Except.error PokerError.InsufficientFunds
  | PlayerActionType.None => Except.error PokerError.InvalidAction

/-- Function `player_action` from `game_play.rs`: stage, turn, fold and all-in
gates, then the action arm (`player_action_step`), then the common
last-action bookkeeping and the turn switch. -/
def player_action (g : GameState) (player : Pubkey) (now : Int)
    (action : PlayerActionType) (raise_amount : Option Nat) :
    Except PokerError GameState :=
  if ¬ is_betting_stage g.stage then Except.error PokerError.InvalidGameStage
  else if ¬ is_player_turn g player then Except.error PokerError.NotYourTurn
  else
    let is_player1 : Bool := player == g.player1
    let current_bet := if is_player1 then g.player1_current_bet else g.player2_current_bet
    let opponent_bet := if is_player1 then g.player2_current_bet else g.player1_current_bet
    let player_stack := if is_player1 then g.player1_stack else g.player2_stack
    let opponent_stack := if is_player1 then g.player2_stack else g.player1_stack
    if (if is_player1 then g.player1_folded else g.player2_folded) then
      Except.error PokerError.CannotActAfterFold
    else if (if is_player1 then g.player1_all_in else g.player2_all_in) then
      Except.error PokerError.CannotRaiseAllIn
    else
      match player_action_step g player is_player1 current_bet opponent_bet
          player_stack opponent_stack action raise_amount with
      | Except.error e => Except.error e
      | Except.ok g1 =>
          Except.ok { g1 with
            last_action := action,
            last_action_at := now,
            current_player := if g.current_player = 1 then 2 else 1 }

/-! ## Hand setup (`game_setup.rs`) -/

/-- Function `create_game` from `tilt_programs/src/instructions/game_setup.rs`.
The token-vault transfer is an external escrow effect; the balance
ledger entry is passed and returned explicitly.  Returns the freshly
initialised `GameState` and the debited player-1 balance. -/
def create_game (player1 : Pubkey) (stake_amount : Nat)
    (player1_ephemeral_pubkey : EphemeralPubkey) (deck_merkle_root : List Nat)
    (game_id : Nat) (player1_balance : Nat) (now : Int)
    (token_vault : Pubkey) (vault_bump : Nat) (bump : Nat) :
    Except PokerError (GameState × Nat) :=
  if stake_amount > 0 then
    if player1_ephemeral_pubkey.data ≠ zero32 then
      if deck_merkle_root ≠ zero32 then
        let bond_amount := stake_amount / 10
        let total_amount := stake_amount + bond_amount
        if player1_balance ≥ total_amount then
          let new_balance := player1_balance - total_amount
          let g : GameState := {
            game_id := game_id
            player1 := player1
            player2 := 0
            token_vault := token_vault
            vault_bump := vault_bump
            stake_amount := stake_amount
            pot := 0
            player1_current_bet := 0
            player2_current_bet := 0
            player1_stack := stake_amount
            player2_stack := 0
            player1_bond := bond_amount
            player2_bond := 0
            player1_ephemeral_pubkey := player1_ephemeral_pubkey
            player2_ephemeral_pubkey := ⟨zero32⟩
            deck_merkle_root := deck_merkle_root
            encrypted_cards := List.replicate 9 zero_card
            player1_flop_shares := List.replicate 3 zero_card
            player1_turn_share := zero_card
            player1_river_share := zero_card
            player1_hand := [0, 0]
            player2_hand := [0, 0]
            community_cards := [0, 0, 0, 0, 0]
            community_cards_revealed := 0
            stage := GameStage.WaitingForPlayer2
            current_player := 0
            dealer_button := 1
            last_action := PlayerActionType.None
            small_blind := stake_amount / 100
            big_blind := stake_amount / 50
            player1_folded := false
            player2_folded := false
            player1_all_in := false
            player2_all_in := false
            player1_revealed_hand := false
            player2_revealed_hand := false
            created_at := now
            last_action_at := now
            action_timeout := 60
            reveal_deadline := 0
            winner := none
            winning_hand_rank := none
            bump := bump }
          Except.ok (g, new_balance)
        else Except.error PokerError.InsufficientBalanceToJoin
      else Except.error PokerError.InvalidCommitment
    else Except.error PokerError.InvalidEphemeralKey
  else Except.error PokerError.InvalidBetAmount

/-- Function `join_game` from `tilt_programs/src/instructions/game_setup.rs`.
Merkle-proof and re-encryption verification are commented out in the
source (the optimistic model); only the shape checks remain.  Returns
the updated state and the debited player-2 balance. -/
def join_game (g : GameState) (player2 : Pubkey)
    (player2_ephemeral_pubkey : EphemeralPubkey)
    (encrypted_cards : List EncryptedCard) (merkle_proofs_len : Nat)
    (player2_balance : Nat) (now : Int) :
    Except PokerError (GameState × Nat) :=
  if player2_ephemeral_pubkey.data ≠ zero32 then
    if merkle_proofs_len = 9 then
      if encrypted_cards.all (fun c => c.data ≠ zero32) then
        if g.stage = GameStage.WaitingForPlayer2 then
          if g.player2 = 0 then
            if player2 ≠ g.player1 then
              let bond_amount := g.stake_amount / 10
              let total_amount := g.stake_amount + bond_amount
              if player2_balance ≥ total_amount then
                let new_balance := player2_balance - total_amount
                let g1 := { g with
                  player2 := player2
                  player2_ephemeral_pubkey := player2_ephemeral_pubkey
                  player2_stack := g.stake_amount
                  player2_bond := bond_amount
                  encrypted_cards := encrypted_cards }
                let g2 :=
                  if g1.dealer_button = 1 then
                    { g1 with
                      player1_current_bet := g1.small_blind
                      player2_current_bet := g1.big_blind
                      player1_stack := sat_sub g1.player1_stack g1.small_blind
                      player2_stack := sat_sub g1.player2_stack g1.big_blind
                      pot := g1.small_blind + g1.big_blind
                      current_player := 1 }
                  else
                    { g1 with
                      player2_current_bet := g1.small_blind
                      player1_current_bet := g1.big_blind
                      player2_stack := sat_sub g1.player2_stack g1.small_blind
                      player1_stack := sat_sub g1.player1_stack g1.big_blind
                      pot := g1.small_blind + g1.big_blind
                      current_player := 2 }
                Except.ok ({ g2 with
                  stage := GameStage.PreFlopBetting
                  last_action_at := now }, new_balance)
              else Except.error PokerError.InsufficientBalanceToJoin
            else Except.error PokerError.CannotJoinOwnGame
          else Except.error PokerError.GameAlreadyFull
        else Except.error PokerError.InvalidGameStage
      else Except.error PokerError.InvalidEncryptedCards
    else Except.error PokerError.InvalidEncryptedCards
  else Except.error PokerError.InvalidEphemeralKey

/-! ## Community-card reveal (`reveal_community_cards` in
`game_setup.rs`) -/

/-- Function `reveal_community_cards` from
`tilt_programs/src/instructions/game_setup.rs`.  Step A
(`Awaiting*Reveal`): player 1 stores decryption shares and a deadline is
set.  Step B (`AwaitingPlayer2*Share`): player 2's plaintext cards are
stored; the `verify_card` calls in the source are commented out
("optimistic verification"), so no cryptographic check happens here. -/
def reveal_community_cards (g : GameState) (player : Pubkey) (now : Int)
    (decryption_shares : List EncryptedCard)
    (plaintext_cards : Option (List Nat)) :
    Except PokerError GameState :=
  let is_player1 : Bool := player == g.player1
  match g.stage with
  | GameStage.AwaitingFlopReveal =>
      if is_player1 then
        if decryption_shares.length = 3 then
          Except.ok { g with
            player1_flop_shares :=
              [decryption_shares.getD 0 zero_card,
               decryption_shares.getD 1 zero_card,
               decryption_shares.getD 2 zero_card]
            reveal_deadline := now + g.action_timeout
            stage := GameStage.AwaitingPlayer2FlopShare
            last_action_at := now }
        else Except.error PokerError.MissingDecryptionShares
      else Except.error PokerError.NotYourTurn
  | GameStage.AwaitingPlayer2FlopShare =>
      if ¬ is_player1 then
        if decryption_shares.length = 3 then
          match plaintext_cards with
          | some plaintext =>
              if plaintext.length = 3 then
                Except.ok { g with
                  community_cards :=
                    ((g.community_cards.set 0 (plaintext.getD 0 0)).set 1
                      (plaintext.getD 1 0)).set 2 (plaintext.getD 2 0)
                  community_cards_revealed := 3
                  current_player := if g.dealer_button = 1 then 2 else 1
                  player1_current_bet := 0
                  player2_current_bet := 0
                  stage := GameStage.PostFlopBetting
                  last_action := PlayerActionType.None
                  last_action_at := now }
              else Except.error PokerError.InvalidCommunityCards
          | none => Except.error PokerError.InvalidCommunityCards
        else Except.error PokerError.MissingDecryptionShares
      else Except.error PokerError.NotYourTurn
  | GameStage.AwaitingTurnReveal =>
      if is_player1 then
        if decryption_shares.length = 1 then
          Except.ok { g with
            player1_turn_share := decryption_shares.getD 0 zero_card
            reveal_deadline := now + g.action_timeout
            stage := GameStage.AwaitingPlayer2TurnShare
            last_action_at := now }
        else Except.error PokerError.MissingDecryptionShares
      else Except.error PokerError.NotYourTurn
  | GameStage.AwaitingPlayer2TurnShare =>
      if ¬ is_player1 then
        if decryption_shares.length = 1 then
          match plaintext_cards with
          | some plaintext =>
              if plaintext.length = 1 then
                Except.ok { g with
                  community_cards := g.community_cards.set 3 (plaintext.getD 0 0)
                  community_cards_revealed := 4
                  current_player := if g.dealer_button = 1 then 2 else 1
                  player1_current_bet := 0
                  player2_current_bet := 0
                  stage := GameStage.PostTurnBetting
                  last_action := PlayerActionType.None
                  last_action_at := now }
              else Except.error PokerError.InvalidCommunityCards
          | none => Except.error PokerError.InvalidCommunityCards
        else Except.error PokerError.MissingDecryptionShares
      else Except.error PokerError.NotYourTurn
  | GameStage.AwaitingRiverReveal =>
      if is_player1 then
        if decryption_shares.length = 1 then
          Except.ok { g with
            player1_river_share := decryption_shares.getD 0 zero_card
            reveal_deadline := now + g.action_timeout
            stage := GameStage.AwaitingPlayer2RiverShare
            last_action_at := now }
        else Except.error PokerError.MissingDecryptionShares
      else Except.error PokerError.NotYourTurn
  | GameStage.AwaitingPlayer2RiverShare =>
      if ¬ is_player1 then
        if decryption_shares.length = 1 then
          match plaintext_cards with
          | some plaintext =>
              if plaintext.length = 1 then
                Except.ok { g with
                  community_cards := g.community_cards.set 4 (plaintext.getD 0 0)
                  community_cards_revealed := 5
                  current_player := if g.dealer_button = 1 then 2 else 1
                  player1_current_bet := 0
                  player2_current_bet := 0
                  stage := GameStage.PostRiverBetting
                  last_action := PlayerActionType.None
                  last_action_at := now }
              else Except.error PokerError.InvalidCommunityCards
          | none => Except.error PokerError.InvalidCommunityCards
        else Except.error PokerError.MissingDecryptionShares
      else Except.error PokerError.NotYourTurn
  | _ => Except.error PokerError.InvalidGameStage

/-! ## Settlement and timeout (`game_end.rs`) -/

/-- Struct `PlayerAccount` from `tilt_programs/src/state.rs`. -/
structure PlayerAccount where
  authority : Pubkey
  total_hands_played : Nat
  total_hands_won : Nat
  total_winnings : Int
  bump : Nat
deriving DecidableEq, Repr

/-- Function `update_player_stats` from
`tilt_programs/src/instructions/game_end.rs`: branches on `p1_win > 0`,
then `p2_win > 0`, with a final split-pot branch.  Returns the updated
accounts and balances. -/
def update_player_stats (acc1 acc2 : PlayerAccount) (bal1 bal2 : Nat)
    (p1_win p2_win : Nat) (stake : Int) :
    PlayerAccount × PlayerAccount × Nat × Nat :=
  let acc1 := { acc1 with total_hands_played := acc1.total_hands_played + 1 }
  let acc2 := { acc2 with total_hands_played := acc2.total_hands_played + 1 }
  if p1_win > 0 then
    ({ acc1 with
        total_hands_won := acc1.total_hands_won + 1
        total_winnings := sat_sub_i64 (sat_add_i64 acc1.total_winnings (Int.ofNat p1_win)) stake },
     { acc2 with total_winnings := sat_sub_i64 acc2.total_winnings stake },
     sat_add bal1 p1_win, bal2)
  else if p2_win > 0 then
    ({ acc1 with total_winnings := sat_sub_i64 acc1.total_winnings stake },
     { acc2 with
        total_hands_won := acc2.total_hands_won + 1
        total_winnings := sat_sub_i64 (sat_add_i64 acc2.total_winnings (Int.ofNat p2_win)) stake },
     bal1, sat_add bal2 p2_win)
  else
    ({ acc1 with
        total_winnings := sat_sub_i64 (sat_add_i64 acc1.total_winnings (Int.ofNat p1_win)) stake },
     { acc2 with
        total_winnings := sat_sub_i64 (sat_add_i64 acc2.total_winnings (Int.ofNat p2_win)) stake },
     sat_add bal1 p1_win, sat_add bal2 p2_win)

/-- Function `resolve_hand` from `tilt_programs/src/instructions/game_end.rs`:
the two-step showdown.  First reveal flags the caller and sets a
deadline; the second reveal verifies all four pocket cards with
`verify_card`, scores both seven-card hands with `find_best_hand`, and
settles.  The vault transfer is an external escrow effect. -/
def resolve_hand (g : GameState) (player : Pubkey) (now : Int)
    (acc1 acc2 : PlayerAccount) (bal1 bal2 : Nat) :
    Except PokerError (GameState × PlayerAccount × PlayerAccount × Nat × Nat) :=
  if g.stage = GameStage.Showdown ∨ g.stage = GameStage.AwaitingPlayer2ShowdownReveal then
    let is_player1 : Bool := player == g.player1
    if g.stage = GameStage.Showdown then
      if ¬ g.player1_revealed_hand ∧ ¬ g.player2_revealed_hand then
        Except.ok ({ g with
          player1_revealed_hand := if is_player1 then true else g.player1_revealed_hand
          player2_revealed_hand := if is_player1 then g.player2_revealed_hand else true
          reveal_deadline := now + g.action_timeout
          stage := GameStage.AwaitingPlayer2ShowdownReveal
          last_action_at := now }, acc1, acc2, bal1, bal2)
      else Except.error PokerError.AlreadyRevealedHand
    else
      if (is_player1 ∧ ¬ g.player1_revealed_hand) ∨ (¬ is_player1 ∧ ¬ g.player2_revealed_hand) then
        let g0 := { g with
          player1_revealed_hand := if is_player1 then true else g.player1_revealed_hand
          player2_revealed_hand := if is_player1 then g.player2_revealed_hand else true }
        let p1_encrypted := get_player1_encrypted_cards g0
        let p2_encrypted := get_player2_encrypted_cards g0
        if verify_card g0 (g0.player1_hand.getD 0 0) (p1_encrypted.getD 0 zero_card) then
        if verify_card g0 (g0.player1_hand.getD 1 0) (p1_encrypted.getD 1 zero_card) then
        if verify_card g0 (g0.player2_hand.getD 0 0) (p2_encrypted.getD 0 zero_card) then
        if verify_card g0 (g0.player2_hand.getD 1 0) (p2_encrypted.getD 1 zero_card) then
          let player1_score := (find_best_hand g0.player1_hand g0.community_cards).2
          let player2_score := (find_best_hand g0.player2_hand g0.community_cards).2
          let pot_amount := g0.pot
          let stake : Int := Int.ofNat g0.stake_amount
          let outcome :=
            if player1_score > player2_score then
              ({ g0 with
                  winner := some g0.player1
                  winning_hand_rank := some ((player1_score >>> 20) % 2 ^ 16) },
               pot_amount + g0.player1_bond, g0.player2_bond)
            else if player2_score > player1_score then
              ({ g0 with
                  winner := some g0.player2
                  winning_hand_rank := some ((player2_score >>> 20) % 2 ^ 16) },
               g0.player1_bond, pot_amount + g0.player2_bond)
            else
              let pot_split := pot_amount / 2
              ({ g0 with winner := none },
               pot_split + g0.player1_bond, pot_split + g0.player2_bond)
          let g1 := { outcome.1 with stage := GameStage.Finished }
          let stats := update_player_stats acc1 acc2 bal1 bal2 outcome.2.1 outcome.2.2 stake
          Except.ok (g1, stats.1, stats.2.1, stats.2.2.1, stats.2.2.2)
        else Except.error PokerError.CardVerificationFailed
        else Except.error PokerError.CardVerificationFailed
        else Except.error PokerError.CardVerificationFailed
        else Except.error PokerError.CardVerificationFailed
      else Except.error PokerError.AlreadyRevealedHand
  else Except.error PokerError.InvalidGameStage

/-- The deadline test used inside `claim_timeout`: reveal stages check
the reveal deadline, every other stage checks the caller is not the one
to act and the action timeout. -/
def claim_timeout_check (g : GameState) (player : Pubkey) (now : Int)
    (elapsed : Int) : Bool :=
  match g.stage with
  | GameStage.AwaitingPlayer2FlopShare => decide (now > g.reveal_deadline)
  | GameStage.AwaitingPlayer2TurnShare => decide (now > g.reveal_deadline)
  | GameStage.AwaitingPlayer2RiverShare => decide (now > g.reveal_deadline)
  | GameStage.AwaitingPlayer2ShowdownReveal => decide (now > g.reveal_deadline)
  | _ => (! is_player_turn g player) && decide (elapsed > g.action_timeout)

/-- Function `claim_timeout` from `tilt_programs/src/instructions/game_end.rs`:
after the timeout check passes, the caller is recorded as winner, the
caller's balance is credited `pot + player1_bond + player2_bond`, and
the stage is set to `Finished`. -/
def claim_timeout (g : GameState) (player : Pubkey) (now : Int)
    (bal1 bal2 : Nat) :
    Except PokerError (GameState × Nat × Nat) :=
  let elapsed := now - g.last_action_at
  if elapsed > g.action_timeout then
    if claim_timeout_check g player now elapsed then
      let is_player1 : Bool := player == g.player1
      let winner_amount := g.pot + g.player1_bond + g.player2_bond
      let bal1' := if is_player1 then sat_add bal1 winner_amount else bal1
      let bal2' := if is_player1 then bal2 else sat_add bal2 winner_amount
      Except.ok ({ g with
        winner := some player
        stage := GameStage.Finished }, bal1', bal2')
    else Except.error PokerError.TimeoutNotReached
  else Except.error PokerError.TimeoutNotReached

/-! ## Legacy seeded shuffle (`initialize_deck` in
`tilt_programs/src/state.rs`) -/

/-- Operation `deck.swap(i, j)` on a list: exchange the entries at `i` and `j`. -/
def swap_list (l : List Nat) (i j : Nat) : List Nat :=
  (l.set i (l.getD j 0)).set j (l.getD i 0)

/-- Conversion `u32::from_le_bytes([seed[0], seed[1], seed[2], seed[3]])`: the
first four bytes of a seed, little-endian. -/
def u32_from_le4 (seed : List Nat) : Nat :=
  seed.getD 0 0 + 256 * seed.getD 1 0 + 65536 * seed.getD 2 0
    + 16777216 * seed.getD 3 0

/-- The Fisher-Yates loop of `initialize_deck`, counting `i` down from
51 to 1: hash the seed, take the first four little-endian bytes mod
`i + 1` as `j`, and swap positions `i` and `j`.  The keccak-256 hash is
an external primitive (`solana_program::keccak`), passed as the `hash`
parameter. -/
def shuffle_loop (hash : List Nat → List Nat) :
    Nat → List Nat → List Nat → List Nat
  | 0, _, deck => deck
  | k + 1, seed, deck =>
      let seed1 := hash seed
      let j := u32_from_le4 seed1 % (k + 2)
      shuffle_loop hash k seed1 (swap_list deck (k + 1) j)

/-- Method `GameState::initialize_deck` from `tilt_programs/src/state.rs`
(lines 114-128): start from the ordered deck `0..52` and run the seeded
Fisher-Yates loop.  The deck array is returned (the source writes it
into `self.deck`). -/
def initialize_deck (hash : List Nat → List Nat) (combined_seed : List Nat) :
    List Nat :=
  shuffle_loop hash 51 combined_seed (List.range 52)

deriving instance DecidableEq for Except

/-! ## Named hands and concrete states used by the theorems -/

/-- The wheel straight flush of suit `s`, highest card first:
ranks A, 5, 4, 3, 2. -/
def wheel_hand (s : Nat) : List Nat :=
  [13 * s + 12, 13 * s + 3, 13 * s + 2, 13 * s + 1, 13 * s]

/-- The 6-high straight flush of suit `s`: ranks 6, 5, 4, 3, 2. -/
def six_high_sf (s : Nat) : List Nat :=
  [13 * s + 4, 13 * s + 3, 13 * s + 2, 13 * s + 1, 13 * s]

/-- Encode a number below `2^256` as 32 big-endian bytes. -/
def be32 (n : Nat) : List Nat :=
  (List.range 32).map (fun i => n / 256 ^ (31 - i) % 256)

/-- An ephemeral pubkey whose exponent is 2 (in range `[2, p-1]`). -/
def ek_two : EphemeralPubkey := ⟨be32 2⟩

/-- The double encryption of card `m` under two exponent-2 keys:
`((m + 2) ^ 2) ^ 2 = (m + 2) ^ 4`, which is far below the modulus. -/
def enc_pow4 (m : Nat) : EncryptedCard := ⟨be32 ((m + 2) ^ 4)⟩

/-- A small mid-hand state used as a base for concrete scenarios:
pre-flop, player 1 (bet 0, stack 100) to act against player 2 (bet 10,
stack 5), pot 10, bonds 100 each, both ephemeral keys 2. -/
def base_state : GameState := {
  game_id := 1
  player1 := 101
  player2 := 202
  token_vault := 9
  vault_bump := 0
  stake_amount := 1000
  pot := 10
  player1_current_bet := 0
  player2_current_bet := 10
  player1_stack := 100
  player2_stack := 5
  player1_bond := 100
  player2_bond := 100
  player1_ephemeral_pubkey := ek_two
  player2_ephemeral_pubkey := ek_two
  deck_merkle_root := List.replicate 32 1
  encrypted_cards := List.replicate 9 ⟨be32 7⟩
  player1_flop_shares := List.replicate 3 zero_card
  player1_turn_share := zero_card
  player1_river_share := zero_card
  player1_hand := [0, 0]
  player2_hand := [0, 0]
  community_cards := [0, 0, 0, 0, 0]
  community_cards_revealed := 0
  stage := GameStage.PreFlopBetting
  current_player := 1
  dealer_button := 1
  last_action := PlayerActionType.None
  small_blind := 10
  big_blind := 20
  player1_folded := false
  player2_folded := false
  player1_all_in := false
  player2_all_in := false
  player1_revealed_hand := false
  player2_revealed_hand := false
  created_at := 0
  last_action_at := 0
  action_timeout := 60
  reveal_deadline := 0
  winner := none
  winning_hand_rank := none
  bump := 0 }

/-- A showdown tie with an odd pot: both pockets verify against their
encrypted slots (exponent-2 keys), the board is a royal flush so both
best-of-seven scores are equal, the pot is 31 (odd), the dealer is
player 1, and player 1 has already revealed. -/
def tie_state : GameState := { base_state with
  stage := GameStage.AwaitingPlayer2ShowdownReveal
  pot := 31
  player1_hand := [0, 1]
  player2_hand := [2, 3]
  community_cards := [51, 50, 49, 48, 47]
  encrypted_cards :=
    [enc_pow4 0, enc_pow4 1, enc_pow4 2, enc_pow4 3,
     zero_card, zero_card, zero_card, zero_card, zero_card]
  player1_revealed_hand := true }

/-- The game state `resolve_hand` produces from `tie_state`. -/
def tie_resolved : GameState := { tie_state with
  player2_revealed_hand := true
  winner := none
  stage := GameStage.Finished }

/-- A fresh all-zero `PlayerAccount`. -/
def acc_zero : PlayerAccount := ⟨0, 0, 0, 0, 0⟩

/-- Player 1's account after the tie settlement: hands played 1, hands
won 1 (the split lands in the `p1_win > 0` branch), winnings
`115 - 1000`. -/
def tie_acc1 : PlayerAccount := ⟨0, 1, 1, -885, 0⟩

/-- Player 2's account after the tie settlement: hands played 1, no win
recorded, winnings `-1000`. -/
def tie_acc2 : PlayerAccount := ⟨0, 1, 0, -1000, 0⟩

/-- A state waiting for player 2's flop share, with encrypted community
slots that do not match any honestly-encrypted card. -/
def flop_share_state : GameState := { base_state with
  stage := GameStage.AwaitingPlayer2FlopShare
  encrypted_cards := List.replicate 9 ⟨be32 1⟩ }

/-- A finished hand (for the repeated `claim_timeout` scenario): stage
`Finished`, `current_player = 2`, pot and bonds still recorded. -/
def fin_state : GameState := { base_state with
  stage := GameStage.Finished
  current_player := 2 }

/-- A reveal-stage state whose deadline has passed (for `claim_timeout`
by the delinquent player 2). -/
def turn_share_state : GameState := { base_state with
  stage := GameStage.AwaitingPlayer2TurnShare
  current_player := 2
  reveal_deadline := 10 }

/-- The state `claim_timeout` leaves behind: winner set to the caller,
stage `Finished`, everything else (pot, bonds, deadlines, turn)
untouched. -/
def claimed_state (g : GameState) (player : Pubkey) : GameState :=
  { g with winner := some player, stage := GameStage.Finished }

/-- The amount `claim_timeout` credits: `pot + player1_bond +
player2_bond`. -/
def timeout_payout (g : GameState) : Nat :=
  g.pot + g.player1_bond + g.player2_bond

/-- The state right after `create_game 101 1000 ek_two (replicate 32 1) 7
5000 0 55 250 251`. -/
def created_state : GameState := {
  game_id := 7
  player1 := 101
  player2 := 0
  token_vault := 55
  vault_bump := 250
  stake_amount := 1000
  pot := 0
  player1_current_bet := 0
  player2_current_bet := 0
  player1_stack := 1000
  player2_stack := 0
  player1_bond := 100
  player2_bond := 0
  player1_ephemeral_pubkey := ek_two
  player2_ephemeral_pubkey := ⟨zero32⟩
  deck_merkle_root := List.replicate 32 1
  encrypted_cards := List.replicate 9 zero_card
  player1_flop_shares := List.replicate 3 zero_card
  player1_turn_share := zero_card
  player1_river_share := zero_card
  player1_hand := [0, 0]
  player2_hand := [0, 0]
  community_cards := [0, 0, 0, 0, 0]
  community_cards_revealed := 0
  stage := GameStage.WaitingForPlayer2
  current_player := 0
  dealer_button := 1
  last_action := PlayerActionType.None
  small_blind := 10
  big_blind := 20
  player1_folded := false
  player2_folded := false
  player1_all_in := false
  player2_all_in := false
  player1_revealed_hand := false
  player2_revealed_hand := false
  created_at := 0
  last_action_at := 0
  action_timeout := 60
  reveal_deadline := 0
  winner := none
  winning_hand_rank := none
  bump := 251 }

/-- The state after player 2 joins `created_state` with key 2 and nine
non-zero encrypted cards: blinds posted, pot 30, pre-flop betting. -/
def joined_state : GameState := { created_state with
  player2 := 202
  player2_ephemeral_pubkey := ek_two
  player2_stack := 980
  player2_bond := 100
  encrypted_cards := List.replicate 9 ⟨be32 16⟩
  player1_current_bet := 10
  player2_current_bet := 20
  player1_stack := 990
  pot := 30
  current_player := 1
  stage := GameStage.PreFlopBetting
  last_action_at := 1 }

/-- The state after player 1 raises by 10 from `joined_state`
(scenario S4): bet 30 versus 20, pot 50, player 2 to act. -/
def s4_state : GameState := { joined_state with
  player1_current_bet := 30
  player1_stack := 970
  pot := 50
  current_player := 2
  last_action := PlayerActionType.Raise
  last_action_at := 2 }

/-- The state after player 1 calls in `joined_state` (closing the
pre-flop round at bets 20/20, pot 40). -/
def joined_after_call : GameState := { joined_state with
  player1_current_bet := 20
  player1_stack := 980
  pot := 40
  current_player := 2
  last_action := PlayerActionType.Call
  last_action_at := 2 }

/-- The state `player_action` produces from `base_state` when player 1
raises by 40: the raise is capped at what player 2 can match (bet 15),
but the full 50 still enters the pot. -/
def capped_raise_state : GameState := { base_state with
  player1_current_bet := 15
  player1_stack := 50
  pot := 60
  current_player := 2
  last_action := PlayerActionType.Raise
  last_action_at := 1 }

/-! ## C3: the prime constant -/

/-- C3: the claim states that `PRIME_BYTES`, read big-endian, equals
`2^256 - 189` and is the 32-byte sequence of thirty-one `FF` bytes
followed by `43`.  In `tilt_programs/src/state/game.rs` the constant is
in fact a 33-byte array (thirty-two `FF` bytes then `43`) whose value is
`2^264 - 189`, contradicting both the spec and the comment directly
above the constant in the source; the copy in
`zkpoker/src/state/game.rs` does match the claimed value. -/
theorem C3_prime_bytes_mismatch :
    PRIME_BYTES.length = 33 ∧
    from_bytes_be PRIME_BYTES = 2 ^ 264 - 189 ∧
    from_bytes_be PRIME_BYTES ≠ 2 ^ 256 - 189 ∧
    ZK_PRIME_BYTES.length = 32 ∧
    from_bytes_be ZK_PRIME_BYTES = 2 ^ 256 - 189 := by
  refine ⟨rfl, by decide, by decide, rfl, by decide⟩

/-! ## Supporting lemmas for the shuffle -/

/-- Swapping two in-range positions does not change element counts. -/
theorem count_swap_list (l : List Nat) (i j a : Nat)
    (hi : i < l.length) (hj : j < l.length) :
    (swap_list l i j).count a = l.count a := by
  unfold swap_list
  rw [List.getD_eq_getElem l 0 hj, List.getD_eq_getElem l 0 hi]
  have hj1 : j < (l.set i l[j]).length := by
    rw [List.length_set]; exact hj
  rw [List.count_set _ _ _ _ hj1, List.count_set _ _ _ _ hi]
  have hXj : (l.set i l[j])[j] = l[j] := by
    rw [List.getElem_set]
    exact ite_self _
  rw [hXj]
  have hxc : (if (l[i] == a) = true then 1 else 0) ≤ l.count a := by
    split
    · next hia =>
        have : l[i] ∈ l := List.getElem_mem hi
        have heq : l[i] = a := by
          have := hia
          simpa using this
        have : 0 < l.count a := by
          rw [List.count_pos_iff]
          exact heq ▸ this
        omega
    · omega
  omega

/-- Swapping two in-range positions yields a permutation of the list. -/
theorem swap_list_perm (l : List Nat) (i j : Nat)
    (hi : i < l.length) (hj : j < l.length) :
    (swap_list l i j).Perm l :=
  List.perm_iff_count.mpr fun a => count_swap_list l i j a hi hj

/-- Swapping preserves length. -/
theorem length_swap_list (l : List Nat) (i j : Nat) :
    (swap_list l i j).length = l.length := by
  unfold swap_list
  rw [List.length_set, List.length_set]

/-- Every pass of the Fisher-Yates loop permutes the deck, whatever the
hash function and seed. -/
theorem shuffle_loop_perm (hash : List Nat → List Nat) :
    ∀ (k : Nat) (seed deck : List Nat), k < deck.length →
      (shuffle_loop hash k seed deck).Perm deck := by
  intro k
  induction k with
  | zero => intro seed deck _; exact List.Perm.refl deck
  | succ n ih =>
      intro seed deck hk
      have hk1 : n + 1 < deck.length := hk
      have hj : u32_from_le4 (hash seed) % (n + 2) < deck.length := by
        have : u32_from_le4 (hash seed) % (n + 2) < n + 2 := Nat.mod_lt _ (by omega)
        omega
      have hlen : (swap_list deck (n + 1) (u32_from_le4 (hash seed) % (n + 2))).length
          = deck.length := length_swap_list ..
      have hrec := ih (hash seed) (swap_list deck (n + 1) (u32_from_le4 (hash seed) % (n + 2)))
        (by omega)
      exact hrec.trans (swap_list_perm deck (n + 1) _ hk1 hj)

/-- Each card below 52 occurs exactly once in the ordered deck. -/
theorem count_range_52 : ∀ c, c < 52 → (List.range 52).count c = 1 := by decide

/-- C10: `initialize_deck` is deterministic in its 32-byte seed and
always produces a permutation of 0..51, each card appearing exactly
once; the loop is the seeded Fisher-Yates recursion of the source
(hash the seed, take the first four little-endian bytes modulo `i + 1`,
swap `i` and `j`), stated for every hash function and seed, so in
particular for keccak-256. -/
theorem C10_initialize_deck_permutation
    (hash : List Nat → List Nat) (seed : List Nat) :
    initialize_deck hash seed = initialize_deck hash seed ∧
    (initialize_deck hash seed).Perm (List.range 52) ∧
    ∀ c, c < 52 → (initialize_deck hash seed).count c = 1 := by
  have hperm : (initialize_deck hash seed).Perm (List.range 52) := by
    unfold initialize_deck
    exact shuffle_loop_perm hash 51 seed (List.range 52) (by simp)
  refine ⟨rfl, hperm, fun c hc => ?_⟩
  rw [List.perm_iff_count.mp hperm c]
  exact count_range_52 c hc

/-- Witness for C10: the identity hash and the zero seed give a
permutation in which card 0 appears exactly once. -/
theorem C10_witness :
    (initialize_deck (fun bs => bs) zero32).Perm (List.range 52) ∧
    (initialize_deck (fun bs => bs) zero32).count 0 = 1 :=
  ⟨(C10_initialize_deck_permutation (fun bs => bs) zero32).2.1,
   (C10_initialize_deck_permutation (fun bs => bs) zero32).2.2 0 (by decide)⟩

/-! ## C9: the wheel straight flush -/

/-- Every ordering of the wheel of any suit evaluates to category 8 with
high card 5 (finite check over all 4 x 120 orderings). -/
theorem wheel_eval_all_orders :
    ∀ s, s < 4 → ∀ l ∈ (wheel_hand s).permutations',
      evaluate_hand l = 8 <<< 20 ||| (5 <<< 16) := by decide

/-- The 6-high straight flush of any suit scores category 8, high 6. -/
theorem six_high_sf_eval :
    ∀ s, s < 4 → evaluate_hand (six_high_sf s) = 8 <<< 20 ||| (6 <<< 16) := by decide

/-- C9: any 5-card hand whose cards all share one suit and whose ranks
are exactly the wheel ranks A, 5, 4, 3, 2 evaluates to
`(8 << 20) | (5 << 16)`, which is strictly below every 6-high straight
flush score and strictly below the royal-flush score
`(9 << 20) | (14 << 16)`. -/
theorem C9_wheel_straight_flush (s : Nat) (l : List Nat)
    (hs : s < 4) (hlen : l.length = 5)
    (hsuit : ∀ c ∈ l, suit c = s)
    (hranks : (l.map rank).Perm [12, 3, 2, 1, 0]) :
    evaluate_hand l = 8 <<< 20 ||| (5 <<< 16) ∧
    (∀ t, t < 4 → 8 <<< 20 ||| (5 <<< 16) < evaluate_hand (six_high_sf t)) ∧
    8 <<< 20 ||| (5 <<< 16) < 9 <<< 20 ||| (14 <<< 16) := by
  have hid : ∀ c ∈ l, 13 * s + rank c = c := by
    intro c hc
    have hcs := hsuit c hc
    unfold suit at hcs
    unfold rank
    omega
  have hmap : l.map (fun c => 13 * s + rank c) = l := by
    calc l.map (fun c => 13 * s + rank c)
        = l.map id := List.map_congr_left hid
      _ = l := List.map_id l
  have hperm : l.Perm (wheel_hand s) := by
    have h1 := hranks.map (fun r => 13 * s + r)
    rw [List.map_map] at h1
    have h2 : (l.map fun c => 13 * s + rank c).Perm
        ([12, 3, 2, 1, 0].map fun r => 13 * s + r) := h1
    rw [hmap] at h2
    simpa [wheel_hand] using h2
  refine ⟨?_, ?_, by decide⟩
  · exact wheel_eval_all_orders s hs l (List.mem_permutations'.mpr hperm)
  · intro t ht
    rw [six_high_sf_eval t ht]
    decide

/-- Witness for C9: the spade wheel listed as A, 5, 4, 3, 2. -/
theorem C9_witness :
    evaluate_hand [51, 42, 41, 40, 39] = 8 <<< 20 ||| (5 <<< 16) ∧
    8 <<< 20 ||| (5 <<< 16) < 9 <<< 20 ||| (14 <<< 16) :=
  ⟨(C9_wheel_straight_flush 3 [51, 42, 41, 40, 39]
      (by decide) (by decide) (by decide) (by decide)).1,
   (C9_wheel_straight_flush 3 [51, 42, 41, 40, 39]
      (by decide) (by decide) (by decide) (by decide)).2.2⟩

/-! ## C1: step B of the community-card reveal -/

/-- Counterexample to C1: in `flop_share_state` the submitted plaintext
card 0 does not verify against the stored encrypted slot 4, yet
`reveal_community_cards` succeeds, stores the plaintexts `[0, 9, 13]`
verbatim, and advances to `PostFlopBetting`: the `verify_card` calls of
step B are commented out in the source, so no transition aborts with
`CardVerificationFailed` and the state does change. -/
theorem C1_counterexample :
    verify_card flop_share_state 0
      (flop_share_state.encrypted_cards.getD 4 zero_card) = false ∧
    reveal_community_cards flop_share_state 202 5
      (List.replicate 3 zero_card) (some [0, 9, 13]) =
      Except.ok { flop_share_state with
        community_cards := [0, 9, 13, 0, 0]
        community_cards_revealed := 3
        current_player := 2
        player1_current_bet := 0
        player2_current_bet := 0
        stage := GameStage.PostFlopBetting
        last_action := PlayerActionType.None
        last_action_at := 5 } := by
  constructor
  · decide
  · decide

/-- C1 (amended): at step B of every community-card reveal
(`AwaitingPlayer2FlopShare`, `AwaitingPlayer2TurnShare`,
`AwaitingPlayer2RiverShare`) the arbiter performs no on-chain
verification: even when a submitted plaintext card fails `verify_card`
against the stored encrypted slot, the transition succeeds, the
plaintexts are stored verbatim, and the stage advances to the next
betting street (the optimistic model; cheating is left to off-chain
detection plus `claim_timeout`). -/
theorem C1_reveal_skips_verification (g : GameState) (player : Pubkey)
    (now : Int) (shares : List EncryptedCard) (plaintext : List Nat)
    (hplayer : player ≠ g.player1) :
    (g.stage = GameStage.AwaitingPlayer2FlopShare → shares.length = 3 →
      plaintext.length = 3 →
      verify_card g (plaintext.getD 0 0) (g.encrypted_cards.getD 4 zero_card) = false →
      reveal_community_cards g player now shares (some plaintext) =
        Except.ok { g with
          community_cards :=
            ((g.community_cards.set 0 (plaintext.getD 0 0)).set 1
              (plaintext.getD 1 0)).set 2 (plaintext.getD 2 0)
          community_cards_revealed := 3
          current_player := if g.dealer_button = 1 then 2 else 1
          player1_current_bet := 0
          player2_current_bet := 0
          stage := GameStage.PostFlopBetting
          last_action := PlayerActionType.None
          last_action_at := now }) ∧
    (g.stage = GameStage.AwaitingPlayer2TurnShare → shares.length = 1 →
      plaintext.length = 1 →
      verify_card g (plaintext.getD 0 0) (g.encrypted_cards.getD 7 zero_card) = false →
      reveal_community_cards g player now shares (some plaintext) =
        Except.ok { g with
          community_cards := g.community_cards.set 3 (plaintext.getD 0 0)
          community_cards_revealed := 4
          current_player := if g.dealer_button = 1 then 2 else 1
          player1_current_bet := 0
          player2_current_bet := 0
          stage := GameStage.PostTurnBetting
          last_action := PlayerActionType.None
          last_action_at := now }) ∧
    (g.stage = GameStage.AwaitingPlayer2RiverShare → shares.length = 1 →
      plaintext.length = 1 →
      verify_card g (plaintext.getD 0 0) (g.encrypted_cards.getD 8 zero_card) = false →
      reveal_community_cards g player now shares (some plaintext) =
        Except.ok { g with
          community_cards := g.community_cards.set 4 (plaintext.getD 0 0)
          community_cards_revealed := 5
          current_player := if g.dealer_button = 1 then 2 else 1
          player1_current_bet := 0
          player2_current_bet := 0
          stage := GameStage.PostRiverBetting
          last_action := PlayerActionType.None
          last_action_at := now }) := by
  have hb : (player == g.player1) = false := by
    simpa using hplayer
  refine ⟨?_, ?_, ?_⟩
  · intro hstage h1 h2 _hverify
    simp only [reveal_community_cards, hstage, hb, h1, h2]
    simp
  · intro hstage h1 h2 _hverify
    simp only [reveal_community_cards, hstage, hb, h1, h2]
    simp
  · intro hstage h1 h2 _hverify
    simp only [reveal_community_cards, hstage, hb, h1, h2]
    simp

/-- Witness for C1: the flop-stage conjunct applied to
`flop_share_state` with failing plaintexts `[0, 9, 13]`. -/
theorem C1_witness :
    reveal_community_cards flop_share_state 202 5
      (List.replicate 3 zero_card) (some [0, 9, 13]) =
      Except.ok { flop_share_state with
        community_cards :=
          ((flop_share_state.community_cards.set 0 0).set 1 9).set 2 13
        community_cards_revealed := 3
        current_player := if flop_share_state.dealer_button = 1 then 2 else 1
        player1_current_bet := 0
        player2_current_bet := 0
        stage := GameStage.PostFlopBetting
        last_action := PlayerActionType.None
        last_action_at := 5 } :=
  (C1_reveal_skips_verification flop_share_state 202 5
      (List.replicate 3 zero_card) [0, 9, 13] (by decide)).1
    (by decide) (by decide) (by decide) (by decide)

/-! ## C7: claim_timeout on a finished hand -/

/-- C7: `claim_timeout` has no precondition excluding terminal stages.
On a hand whose stage is already `Finished`, whenever more than
`action_timeout` seconds have elapsed since `last_action_at` and
`current_player` does not designate the caller, the claim succeeds,
sets the winner to the caller and credits the caller's balance with
`pot + player1_bond + player2_bond`; the resulting state is again
`Finished` with the same pot, bonds, `last_action_at` and
`current_player`, so a second claim immediately succeeds and credits
the same amount again. -/
theorem C7_claim_timeout_repeatable (g : GameState) (player : Pubkey)
    (now : Int) (bal1 bal2 : Nat)
    (hstage : g.stage = GameStage.Finished)
    (helapsed : now - g.last_action_at > g.action_timeout)
    (hturn : is_player_turn g player = false) :
    claim_timeout g player now bal1 bal2 =
      Except.ok (claimed_state g player,
        if player == g.player1 then sat_add bal1 (timeout_payout g) else bal1,
        if player == g.player1 then bal2 else sat_add bal2 (timeout_payout g)) ∧
    ∀ b1 b2 : Nat,
      claim_timeout (claimed_state g player) player now b1 b2 =
        Except.ok (claimed_state g player,
          if player == g.player1 then sat_add b1 (timeout_payout g) else b1,
          if player == g.player1 then b2 else sat_add b2 (timeout_payout g)) := by
  constructor
  · simp only [claim_timeout, claim_timeout_check, hstage, hturn]
    simp [helapsed, claimed_state, timeout_payout]
  · intro b1 b2
    simp only [claim_timeout, claim_timeout_check, claimed_state, is_player_turn] at hturn ⊢
    simp only [hturn]
    simp [helapsed, timeout_payout]

/-- Witness for C7: player 1 drains `fin_state` twice, collecting
`pot + both bonds = 210` each time. -/
theorem C7_witness :
    claim_timeout fin_state 101 100 0 0 =
      Except.ok (claimed_state fin_state 101, sat_add 0 (timeout_payout fin_state), 0) ∧
    claim_timeout (claimed_state fin_state 101) 101 100 (sat_add 0 (timeout_payout fin_state)) 0 =
      Except.ok (claimed_state fin_state 101,
        sat_add (sat_add 0 (timeout_payout fin_state)) (timeout_payout fin_state), 0) := by
  have h := C7_claim_timeout_repeatable fin_state 101 100 0 0
    (by decide) (by decide) (by decide)
  refine ⟨?_, ?_⟩
  · have := h.1
    simpa using this
  · have := h.2 (sat_add 0 (timeout_payout fin_state)) 0
    simpa using this

/-! ## C8: identity-free timeout claims in reveal stages -/

/-- C8: in the four reveal-wait stages `claim_timeout` checks only the
deadlines (more than `action_timeout` seconds since `last_action_at`,
and `now` past `reveal_deadline`), never the caller's identity: any
caller, in particular the delinquent player 2 who failed to submit the
reveal, is recorded as winner and credited `pot + both bonds`. -/
theorem C8_reveal_timeout_ignores_identity (g : GameState) (player : Pubkey)
    (now : Int) (bal1 bal2 : Nat)
    (hstage : g.stage = GameStage.AwaitingPlayer2FlopShare ∨
      g.stage = GameStage.AwaitingPlayer2TurnShare ∨
      g.stage = GameStage.AwaitingPlayer2RiverShare ∨
      g.stage = GameStage.AwaitingPlayer2ShowdownReveal)
    (helapsed : now - g.last_action_at > g.action_timeout)
    (hdeadline : now > g.reveal_deadline) :
    claim_timeout g player now bal1 bal2 =
      Except.ok (claimed_state g player,
        if player == g.player1 then sat_add bal1 (timeout_payout g) else bal1,
        if player == g.player1 then bal2 else sat_add bal2 (timeout_payout g)) := by
  rcases hstage with h | h | h | h <;>
    · simp only [claim_timeout, claim_timeout_check, h]
      simp [helapsed, hdeadline, claimed_state, timeout_payout]

/-- Witness for C8: the delinquent player 2 claims in
`turn_share_state` and pockets 210. -/
theorem C8_witness :
    claim_timeout turn_share_state 202 100 0 0 =
      Except.ok (claimed_state turn_share_state 202, 0,
        sat_add 0 (timeout_payout turn_share_state)) := by
  have h := C8_reveal_timeout_ignores_identity turn_share_state 202 100 0 0
    (by decide) (by decide) (by decide)
  simpa using h

/-! ## C4: split-pot settlement -/

/-- C4 (code bug): in `tie_state` both best-of-seven scores are equal,
the pot is 31 (odd), the dealer is player 1 and both bonds are 100, yet
`resolve_hand` credits player 1 with `pot/2 + bond_1 = 115` and player 2
with nothing at all: because the tie's `p1_win = pot/2 + bond_1` is
positive, `update_player_stats` takes its `p1_win > 0` branch, which
pays only player 1 (and records a win for them).  The claimed payout of
`pot/2 + own_bond` to each player, with the odd chip to the dealer,
would have been 116 and 115. -/
theorem C4_tie_settlement_bug :
    (find_best_hand tie_state.player1_hand tie_state.community_cards).2 =
      (find_best_hand tie_state.player2_hand tie_state.community_cards).2 ∧
    tie_state.pot = 31 ∧
    tie_state.pot % 2 = 1 ∧
    tie_state.dealer_button = 1 ∧
    tie_state.player1_bond = 100 ∧
    tie_state.player2_bond = 100 ∧
    resolve_hand tie_state 202 5 acc_zero acc_zero 0 0 =
      Except.ok (tie_resolved, tie_acc1, tie_acc2, 115, 0) ∧
    (115 : Nat) ≠ tie_state.pot / 2 + tie_state.player1_bond + 1 ∧
    (0 : Nat) ≠ tie_state.pot / 2 + tie_state.player2_bond := by decide

/-! ## Supporting lemmas for the betting engine -/

/-- A successful `player_action` factors into a successful
`player_action_step` followed by the bookkeeping tail, which leaves
pot, bets and stacks unchanged. -/
theorem player_action_ok_decomp (g : GameState) (player : Pubkey) (now : Int)
    (action : PlayerActionType) (ra : Option Nat) (g1 : GameState)
    (h : player_action g player now action ra = Except.ok g1) :
    ∃ g2, player_action_step g player (player == g.player1)
        (if player == g.player1 then g.player1_current_bet else g.player2_current_bet)
        (if player == g.player1 then g.player2_current_bet else g.player1_current_bet)
        (if player == g.player1 then g.player1_stack else g.player2_stack)
        (if player == g.player1 then g.player2_stack else g.player1_stack)
        action ra = Except.ok g2 ∧
      g1.pot = g2.pot ∧
      g1.player1_current_bet = g2.player1_current_bet ∧
      g1.player2_current_bet = g2.player2_current_bet ∧
      g1.player1_stack = g2.player1_stack ∧
      g1.player2_stack = g2.player2_stack := by
  unfold player_action at h
  dsimp only at h
  cases hb : (player == g.player1) <;>
    simp only [hb, Bool.false_eq_true, if_true, if_false] at h ⊢ <;>
    (repeat' (split at h <;> try exact Except.noConfusion h)) <;>
    (have hg := ((Except.ok.injEq _ _).mp h).symm
     subst hg
     rename_i g2v heqv cpv
     exact ⟨g2v, heqv, rfl, rfl, rfl, rfl, rfl⟩)

/-- The action arm preserves the I1 pot equation whenever the acting
bet does not exceed the opponent's and a raise is not capped
(the raise amount fits in the opponent's stack). -/
theorem step_preserves_I1 (g : GameState) (player : Pubkey) (is1 : Bool)
    (cb ob ps os : Nat) (action : PlayerActionType) (ra : Option Nat)
    (closed : Nat) (g2 : GameState)
    (hcb : cb = if is1 then g.player1_current_bet else g.player2_current_bet)
    (hob : ob = if is1 then g.player2_current_bet else g.player1_current_bet)
    (hps : ps = if is1 then g.player1_stack else g.player2_stack)
    (hos : os = if is1 then g.player2_stack else g.player1_stack)
    (hbound : g.pot + g.player1_stack + g.player2_stack
      + g.player1_current_bet + g.player2_current_bet < 2 ^ 64)
    (hI1 : g.pot = g.player1_current_bet + g.player2_current_bet + closed)
    (hbets : cb ≤ ob)
    (hnocap : action = PlayerActionType.Raise → ra.getD 0 ≤ os)
    (hstep : player_action_step g player is1 cb ob ps os action ra = Except.ok g2) :
    g2.pot = g2.player1_current_bet + g2.player2_current_bet + closed := by
  cases is1 <;>
    simp only [if_true, if_false, Bool.false_eq_true, reduceIte] at hcb hob hps hos <;>
    subst hcb <;> subst hob <;> subst hps <;> subst hos <;>
    cases action <;> cases ra <;>
    (try have hr := hnocap rfl) <;>
    unfold player_action_step at hstep <;>
    (try dsimp only at hstep) <;>
    (repeat' (split at hstep <;> try exact Except.noConfusion hstep)) <;>
    first
      | exact Except.noConfusion hstep
      | exact absurd (by assumption : false = true) (by decide)
      | (simp only [Except.ok.injEq] at hstep
         subst hstep
         all_goals try dsimp only
         all_goals simp only [sat_add, sat_sub, U64_MAX, Option.getD_some, Option.getD_none] at *
         all_goals
           first
             | exact absurd trivial (by assumption : ¬True)
             | omega)

/-- The action arm conserves `pot + stack_1 + stack_2` (for any
action, capped raises included). -/
theorem step_preserves_total (g : GameState) (player : Pubkey) (is1 : Bool)
    (cb ob ps os : Nat) (action : PlayerActionType) (ra : Option Nat)
    (g2 : GameState)
    (hcb : cb = if is1 then g.player1_current_bet else g.player2_current_bet)
    (hob : ob = if is1 then g.player2_current_bet else g.player1_current_bet)
    (hps : ps = if is1 then g.player1_stack else g.player2_stack)
    (hos : os = if is1 then g.player2_stack else g.player1_stack)
    (hbound : g.pot + g.player1_stack + g.player2_stack < 2 ^ 64)
    (hstep : player_action_step g player is1 cb ob ps os action ra = Except.ok g2) :
    g2.pot + g2.player1_stack + g2.player2_stack
      = g.pot + g.player1_stack + g.player2_stack := by
  cases is1 <;>
    simp only [if_true, if_false, Bool.false_eq_true, reduceIte] at hcb hob hps hos <;>
    subst hcb <;> subst hob <;> subst hps <;> subst hos <;>
    cases action <;> cases ra <;>
    unfold player_action_step at hstep <;>
    (try dsimp only at hstep) <;>
    (repeat' (split at hstep <;> try exact Except.noConfusion hstep)) <;>
    first
      | exact Except.noConfusion hstep
      | exact absurd (by assumption : false = true) (by decide)
      | (simp only [Except.ok.injEq] at hstep
         subst hstep
         all_goals try dsimp only
         all_goals simp only [sat_add, sat_sub, U64_MAX, Option.getD_some, Option.getD_none] at *
         all_goals
           first
             | exact absurd trivial (by assumption : ¬True)
             | omega)

/-- With all four gates passing, `player_action` is the action arm
followed by the bookkeeping tail. -/
theorem player_action_gates (g : GameState) (player : Pubkey) (now : Int)
    (action : PlayerActionType) (ra : Option Nat)
    (hstage : is_betting_stage g.stage = true)
    (hturn : is_player_turn g player = true)
    (hnofold : (if player == g.player1 then g.player1_folded else g.player2_folded) = false)
    (hnoallin : (if player == g.player1 then g.player1_all_in else g.player2_all_in) = false) :
    player_action g player now action ra =
      match player_action_step g player (player == g.player1)
          (if player == g.player1 then g.player1_current_bet else g.player2_current_bet)
          (if player == g.player1 then g.player2_current_bet else g.player1_current_bet)
          (if player == g.player1 then g.player1_stack else g.player2_stack)
          (if player == g.player1 then g.player2_stack else g.player1_stack)
          action ra with
      | Except.error e => Except.error e
      | Except.ok g1 =>
          Except.ok { g1 with
            last_action := action,
            last_action_at := now,
            current_player := if g.current_player = 1 then 2 else 1 } := by
  unfold player_action
  cases hb : (player == g.player1) <;>
    simp only [hb, Bool.false_eq_true, if_true, if_false] at hnofold hnoallin <;>
    simp [hstage, hturn, hnofold, hnoallin, hb]

/-- A raise fails with `InsufficientFunds` when the stack cannot cover
the call plus the raise. -/
theorem raise_step_insufficient (g : GameState) (player : Pubkey) (is1 : Bool)
    (cb ob s os r : Nat) (hsmax : s < 2 ^ 64 - 1) (hlt : s < (ob - cb) + r) :
    player_action_step g player is1 cb ob s os PlayerActionType.Raise (some r) =
      Except.error PokerError.InsufficientFunds := by
  have hc : ¬ s ≥ sat_add (sat_sub ob cb) r := by
    simp only [sat_add, sat_sub, U64_MAX]
    omega
  unfold player_action_step
  dsimp only
  rw [if_neg hc]

/-- A funded raise below the minimum that is not a short all-in fails
with `MinimumRaiseNotMet`. -/
theorem raise_step_min_raise (g : GameState) (player : Pubkey) (is1 : Bool)
    (cb ob s os r : Nat) (hsmax : s < 2 ^ 64 - 1)
    (hge : (ob - cb) + r ≤ s) (hlt : r < ob - cb) (hne : r ≠ s - (ob - cb)) :
    player_action_step g player is1 cb ob s os PlayerActionType.Raise (some r) =
      Except.error PokerError.MinimumRaiseNotMet := by
  have h1 : s ≥ sat_add (sat_sub ob cb) r := by
    simp only [sat_add, sat_sub, U64_MAX]
    omega
  have h2 : ¬ (r ≥ sat_sub ob cb ∨ r = sat_sub s (sat_sub ob cb)) := by
    simp only [sat_sub]
    omega
  unfold player_action_step
  dsimp only
  rw [if_pos h1, if_neg h2]

/-- A funded raise meeting the minimum-raise rule (or short all-in)
succeeds. -/
theorem raise_step_ok (g : GameState) (player : Pubkey) (is1 : Bool)
    (cb ob s os r : Nat) (hsmax : s < 2 ^ 64 - 1)
    (hge : (ob - cb) + r ≤ s) (hmin : (ob - cb) ≤ r ∨ r = s - (ob - cb)) :
    ∃ g2, player_action_step g player is1 cb ob s os PlayerActionType.Raise (some r) =
      Except.ok g2 := by
  have h1 : s ≥ sat_add (sat_sub ob cb) r := by
    simp only [sat_add, sat_sub, U64_MAX]
    omega
  have h2 : r ≥ sat_sub ob cb ∨ r = sat_sub s (sat_sub ob cb) := by
    simp only [sat_sub]
    omega
  unfold player_action_step
  dsimp only
  rw [if_pos h1, if_pos h2]
  exact ⟨_, rfl⟩

/-! ## C2: the I1 pot invariant -/

/-- Counterexample to C2: in `base_state` the pot equals the sum of the
recorded bets (prior-round contribution 0), player 1's raise of 40 is
capped at what player 2 can match (bet becomes 15), yet the full 50 is
added to the pot, so afterwards `pot = 60` differs from
`bets[0] + bets[1] + 0 = 25`: a capped raise violates I1. -/
theorem C2_counterexample :
    base_state.pot = base_state.player1_current_bet + base_state.player2_current_bet + 0 ∧
    player_action base_state 101 1 PlayerActionType.Raise (some 40) =
      Except.ok capped_raise_state ∧
    capped_raise_state.pot ≠
      capped_raise_state.player1_current_bet + capped_raise_state.player2_current_bet + 0 := by
  refine ⟨by decide, by decide, by decide⟩

/-- C2 (amended): after every successful betting-stage action (Check,
Call, AllIn, Fold, and any Raise that is not capped, i.e. whose raise
amount fits in the opponent's stack), the invariant I1 holds: the pot
equals `bets[0] + bets[1]` plus the stake contributions already closed
out into earlier rounds.  A capped Raise adds the full
`call + raise` to the pot while recording only the capped bet, and is
excluded (see the counterexample). -/
theorem C2_I1_preservation (g : GameState) (player : Pubkey) (now : Int)
    (action : PlayerActionType) (ra : Option Nat) (closed : Nat) (g1 : GameState)
    (hbound : g.pot + g.player1_stack + g.player2_stack
      + g.player1_current_bet + g.player2_current_bet < 2 ^ 64)
    (hI1 : g.pot = g.player1_current_bet + g.player2_current_bet + closed)
    (hbets : (if player == g.player1 then g.player1_current_bet else g.player2_current_bet)
      ≤ (if player == g.player1 then g.player2_current_bet else g.player1_current_bet))
    (hnocap : action = PlayerActionType.Raise →
      ra.getD 0 ≤ (if player == g.player1 then g.player2_stack else g.player1_stack))
    (h : player_action g player now action ra = Except.ok g1) :
    g1.pot = g1.player1_current_bet + g1.player2_current_bet + closed := by
  obtain ⟨g2, hstep, hpot, hb1, hb2, _, _⟩ :=
    player_action_ok_decomp g player now action ra g1 h
  rw [hpot, hb1, hb2]
  exact step_preserves_I1 g player (player == g.player1) _ _ _ _ action ra closed g2
    rfl rfl rfl rfl hbound hI1 hbets hnocap hstep

/-- Witness for C2: player 1's pre-flop call in `joined_state` keeps
I1 with no prior-round contribution. -/
theorem C2_witness :
    joined_after_call.pot =
      joined_after_call.player1_current_bet + joined_after_call.player2_current_bet + 0 :=
  C2_I1_preservation joined_state 101 2 PlayerActionType.Call none 0 joined_after_call
    (by decide) (by decide) (by decide) (by decide) (by decide)

/-! ## C5: the raise rules -/

/-- C5: for a Raise by `r` in a betting stage on the acting player's
turn (not folded, not all-in, stack below `u64::MAX`), with
`d = opponent_bet - own_bet` the call deficit: the action fails with
`InsufficientFunds` when `stack < d + r`; it fails with
`MinimumRaiseNotMet` when the stack covers `d + r` but `r < d` and
`r ≠ stack - d` (not a short all-in); otherwise it succeeds. -/
theorem C5_raise_rules (g : GameState) (player : Pubkey) (now : Int) (r : Nat)
    (hstage : is_betting_stage g.stage = true)
    (hturn : is_player_turn g player = true)
    (hnofold : (if player == g.player1 then g.player1_folded else g.player2_folded) = false)
    (hnoallin : (if player == g.player1 then g.player1_all_in else g.player2_all_in) = false)
    (hsmax : (if player == g.player1 then g.player1_stack else g.player2_stack) < 2 ^ 64 - 1) :
    let s := if player == g.player1 then g.player1_stack else g.player2_stack
    let d := (if player == g.player1 then g.player2_current_bet else g.player1_current_bet)
      - (if player == g.player1 then g.player1_current_bet else g.player2_current_bet)
    (s < d + r →
      player_action g player now PlayerActionType.Raise (some r) =
        Except.error PokerError.InsufficientFunds) ∧
    (d + r ≤ s → r < d → r ≠ s - d →
      player_action g player now PlayerActionType.Raise (some r) =
        Except.error PokerError.MinimumRaiseNotMet) ∧
    (d + r ≤ s → (d ≤ r ∨ r = s - d) →
      ∃ g1, player_action g player now PlayerActionType.Raise (some r) = Except.ok g1) := by
  refine ⟨?_, ?_, ?_⟩
  · intro hlt
    rw [player_action_gates g player now PlayerActionType.Raise (some r)
      hstage hturn hnofold hnoallin]
    rw [raise_step_insufficient g player _ _ _ _ _ r hsmax hlt]
  · intro hge hlt hne
    rw [player_action_gates g player now PlayerActionType.Raise (some r)
      hstage hturn hnofold hnoallin]
    rw [raise_step_min_raise g player _ _ _ _ _ r hsmax hge hlt hne]
  · intro hge hmin
    rw [player_action_gates g player now PlayerActionType.Raise (some r)
      hstage hturn hnofold hnoallin]
    obtain ⟨g2, hg2⟩ := raise_step_ok g player (player == g.player1) _ _ _ _ r hsmax hge hmin
    rw [hg2]
    exact ⟨_, rfl⟩

/-- Witness for C5 (scenario S4): pre-flop with SB 10 and BB 20, after
player 1 raises by 10, player 2's raise of 5 is rejected with
`MinimumRaiseNotMet`. -/
theorem C5_witness :
    player_action s4_state 202 3 PlayerActionType.Raise (some 5) =
      Except.error PokerError.MinimumRaiseNotMet :=
  (C5_raise_rules s4_state 202 3 5
      (by decide) (by decide) (by decide) (by decide) (by decide)).2.1
    (by decide) (by decide) (by decide)

/-! ## C6: value conservation -/

/-- C6: immediately after `join_game` posts the blinds on a freshly
created hand, `pot + stack_1 + stack_2 = 2 * stake`; and every
subsequent successful betting action (Check, Call, Raise, AllIn, Fold)
leaves `pot + stack_1 + stack_2` unchanged (bonds tracked separately). -/
theorem C6_value_conservation :
    (∀ (p1 : Pubkey) (stake : Nat) (eph : EphemeralPubkey) (root : List Nat)
        (gid bal : Nat) (now : Int) (tv vb bp : Nat) (g : GameState) (bal1 : Nat)
        (p2 : Pubkey) (eph2 : EphemeralPubkey) (cards : List EncryptedCard)
        (plen bal2 : Nat) (now2 : Int) (g2 : GameState) (bal2r : Nat),
      create_game p1 stake eph root gid bal now tv vb bp = Except.ok (g, bal1) →
      join_game g p2 eph2 cards plen bal2 now2 = Except.ok (g2, bal2r) →
      g2.pot + g2.player1_stack + g2.player2_stack = 2 * stake) ∧
    (∀ (g : GameState) (player : Pubkey) (now : Int) (action : PlayerActionType)
        (ra : Option Nat) (g1 : GameState),
      g.pot + g.player1_stack + g.player2_stack < 2 ^ 64 →
      player_action g player now action ra = Except.ok g1 →
      g1.pot + g1.player1_stack + g1.player2_stack
        = g.pot + g.player1_stack + g.player2_stack) := by
  constructor
  · intro p1 stake eph root gid bal now tv vb bp g bal1 p2 eph2 cards plen bal2 now2
      g2 bal2r hcreate hjoin
    unfold create_game at hcreate
    dsimp only at hcreate
    repeat' (split at hcreate <;> try exact Except.noConfusion hcreate)
    simp only [Except.ok.injEq, Prod.mk.injEq] at hcreate
    obtain ⟨hg, _⟩ := hcreate
    subst hg
    rw [join_game] at hjoin
    dsimp only at hjoin
    repeat'
      (split at hjoin <;>
        first
          | exact Except.noConfusion hjoin
          | skip)
    all_goals
      first
        | exact Except.noConfusion hjoin
        | (simp only [Except.ok.injEq, Prod.mk.injEq] at hjoin
           obtain ⟨hg2, _⟩ := hjoin
           subst hg2
           dsimp only
           simp only [sat_sub]
           omega)
  · intro g player now action ra g1 hbound h
    obtain ⟨g2, hstep, hpot, _, _, hs1, hs2⟩ :=
      player_action_ok_decomp g player now action ra g1 h
    rw [hpot, hs1, hs2]
    exact step_preserves_total g player (player == g.player1) _ _ _ _ action ra g2
      rfl rfl rfl rfl hbound hstep

/-- Witness for C6: the concrete create / join sequence reaches pot 30
and stacks 990/980 (total 2000 = 2 x 1000), and player 1's call keeps
the total at 2000. -/
theorem C6_witness :
    joined_state.pot + joined_state.player1_stack + joined_state.player2_stack = 2 * 1000 ∧
    joined_after_call.pot + joined_after_call.player1_stack + joined_after_call.player2_stack
      = joined_state.pot + joined_state.player1_stack + joined_state.player2_stack :=
  ⟨C6_value_conservation.1 101 1000 ek_two (List.replicate 32 1) 7 5000 0 55 250 251
      created_state 3900 202 ek_two (List.replicate 9 ⟨be32 16⟩) 9 5000 1
      joined_state 3900 (by decide) (by decide),
   C6_value_conservation.2 joined_state 101 2 PlayerActionType.Call none
      joined_after_call (by decide) (by decide)⟩
